import Mathlib

/-!
Shallow embedding of the pyEight core (src/pyeight/eight.py and
src/pyeight/user.py): the device snapshot history, the per-side heating
accessors, the "current" and "last" session views, and the dynamic
presence state machine.

Conventions of the embedding:
- Python dict keys that may be absent are Option fields; a lookup of an
  absent key raises KeyError unless the source wraps it in a handler.
- Python exceptions are the error side of Except PyErr.  Only the
  exception classes the source can actually raise are modelled, plus one
  spec-only constructor (see PyErr.noDataError).
- datetime.strptime is modelled by an abstract parse function
  (String to Option Int, none meaning ValueError), and the local/UTC
  offset by an Int parameter; both are stdlib collaborators of the core.
- Numeric timeseries values are rationals; the Python float arithmetic of
  the averaged metrics is exact on the inputs the spec discusses.
-/

/-- Python exceptions that the embedded code can surface. -/
inductive PyErr where
  /-- dict lookup of a missing key -/
  | keyError
  /-- list index out of range -/
  | indexError
  /-- operation on None (subscript, arithmetic, ordering) -/
  | typeError
  /-- reading a local variable that no branch assigned -/
  | unboundLocalError
  /-- division by zero -/
  | zeroDivisionError
  /-- datetime.strptime on malformed text -/
  | valueError
  /-- Modelled from the spec: the spec names dedicated NoDataError and
  NoCompletedSessionError failures for the history and the last view; no
  such exception class exists anywhere in the source, which raises the
  builtin exceptions above instead.  The constructor exists only so that
  statements can distinguish the spec's dedicated error from what the
  code actually raises. -/
  | noDataError
  deriving DecidableEq

deriving instance DecidableEq for Except

/-- One entry of an interval's stages list: {stage: ..., duration: ...}. -/
structure Stage where
  stage : String
  duration : Int
  deriving DecidableEq

/-- The timeseries mapping of an interval; each metric key may be absent. -/
structure Timeseries where
  tempBedC : Option (List (String × ℚ))
  tempRoomC : Option (List (String × ℚ))
  respiratoryRate : Option (List (String × ℚ))
  heartRate : Option (List (String × ℚ))
  tnt : Option (List (String × ℚ))
  deriving DecidableEq

/-- One sleep session record of the intervals list (user.py).  Every top
level key may be absent from the raw JSON dict. -/
structure SleepInterval where
  incomplete : Option Bool
  ts : Option String
  score : Option Int
  stages : Option (List Stage)
  timeseries : Option Timeseries
  deriving DecidableEq

/-- One raw device snapshot, restricted to the per-side keys the user
accessors read (eight.py / user.py). -/
structure Snapshot where
  leftHeatingLevel : Option Int
  rightHeatingLevel : Option Int
  leftTargetHeatingLevel : Option Int
  rightTargetHeatingLevel : Option Int
  leftNowHeating : Option Bool
  rightNowHeating : Option Bool
  leftHeatingDuration : Option Int
  rightHeatingDuration : Option Int
  deriving DecidableEq

/-- The dict built by EightUser.heating_values. -/
structure HeatingValues where
  level : Option Int
  target : Option Int
  active : Option Bool
  remaining : Option Int
  deriving DecidableEq

/-- EightSleep.device_data (eight.py): return self device_json_list[0].
Bare list indexing, so an empty history raises IndexError. -/
def device_data {α : Type} (hist : List α) : Except PyErr α :=
  match hist with
  | [] => .error .indexError
  | d :: _ => .ok d

/-- EightSleep.handle_device_json (eight.py):
self device_json_list = [data, *self device_json_list][:10]. -/
def handle_device_json {α : Type} (data : α) (device_json_list : List α) :
    List α :=
  (data :: device_json_list).take 10

/-- A sequence of pushes, oldest first, as the external poller performs
them across successive cycles. -/
def pushSeq {α : Type} (init : List α) (ds : List α) : List α :=
  ds.foldl (fun h d => handle_device_json d h) init

/-- The bed sides assign_users (eight.py) constructs EightUser objects
with: for side in ("left", "right"). -/
def assign_users_sides : List String :=
  ["left", "right"]

/-- EightUser.heating_level (user.py).  The source compares the side
against the capitalized strings; when neither branch runs, `return level`
raises UnboundLocalError.  The `except TypeError: return None` handler of
the source is unreachable in this composition: device_data on an empty
history raises IndexError, which the handler does not catch, so it
propagates. -/
def heating_level (side : String) (hist : List Snapshot) :
    Except PyErr (Option Int) :=
  if side = "Left" then
    match device_data hist with
    | .error e => .error e
    | .ok d =>
      match d.leftHeatingLevel with
      | none => .error .keyError
      | some v => .ok (some v)
  else if side = "Right" then
    match device_data hist with
    | .error e => .error e
    | .ok d =>
      match d.rightHeatingLevel with
      | none => .error .keyError
      | some v => .ok (some v)
  else
    .error .unboundLocalError

/-- EightUser.target_heating_level (user.py); same shape as
heating_level. -/
def target_heating_level (side : String) (hist : List Snapshot) :
    Except PyErr (Option Int) :=
  if side = "Left" then
    match device_data hist with
    | .error e => .error e
    | .ok d =>
      match d.leftTargetHeatingLevel with
      | none => .error .keyError
      | some v => .ok (some v)
  else if side = "Right" then
    match device_data hist with
    | .error e => .error e
    | .ok d =>
      match d.rightTargetHeatingLevel with
      | none => .error .keyError
      | some v => .ok (some v)
  else
    .error .unboundLocalError

/-- EightUser.now_heating (user.py); same shape as heating_level. -/
def now_heating (side : String) (hist : List Snapshot) :
    Except PyErr (Option Bool) :=
  if side = "Left" then
    match device_data hist with
    | .error e => .error e
    | .ok d =>
      match d.leftNowHeating with
      | none => .error .keyError
      | some v => .ok (some v)
  else if side = "Right" then
    match device_data hist with
    | .error e => .error e
    | .ok d =>
      match d.rightNowHeating with
      | none => .error .keyError
      | some v => .ok (some v)
  else
    .error .unboundLocalError

/-- EightUser.heating_remaining (user.py); reads the HeatingDuration
keys, same shape as heating_level. -/
def heating_remaining (side : String) (hist : List Snapshot) :
    Except PyErr (Option Int) :=
  if side = "Left" then
    match device_data hist with
    | .error e => .error e
    | .ok d =>
      match d.leftHeatingDuration with
      | none => .error .keyError
      | some v => .ok (some v)
  else if side = "Right" then
    match device_data hist with
    | .error e => .error e
    | .ok d =>
      match d.rightHeatingDuration with
      | none => .error .keyError
      | some v => .ok (some v)
  else
    .error .unboundLocalError

/-- EightUser.heating_values (user.py): the dict literal evaluates the
four accessors in order, so the first exception propagates. -/
def heating_values (side : String) (hist : List Snapshot) :
    Except PyErr HeatingValues := do
  let level ← heating_level side hist
  let target ← target_heating_level side hist
  let active ← now_heating side hist
  let remaining ← heating_remaining side hist
  .ok ⟨level, target, active, remaining⟩

/-- Shared head of every current/last accessor (user.py): each property
starts with `self.intervals[0][...]` inside `try ... except KeyError`.
An unset intervals attribute (None) raises TypeError and an empty list
raises IndexError; neither is a KeyError, so both propagate. -/
def onIntervals {α : Type} (intervals : Option (List SleepInterval))
    (k : SleepInterval → List SleepInterval → Except PyErr α) :
    Except PyErr α :=
  match intervals with
  | none => .error .typeError
  | some [] => .error .indexError
  | some (iv0 :: rest) => k iv0 rest

/-- Shared body of the current accessors (user.py): a missing
'incomplete' key is a KeyError which the handler turns into None; when
the key holds False the try block completes without assigning the result
variable, so the `return` raises UnboundLocalError; only when it holds
True is the body evaluated on intervals[0]. -/
def selectCurrent {α : Type} (iv0 : SleepInterval)
    (body : SleepInterval → Except PyErr (Option α)) :
    Except PyErr (Option α) :=
  match iv0.incomplete with
  | none => .ok none
  | some false => .error .unboundLocalError
  | some true => body iv0

/-- EightUser.current_session_date (user.py).  strptime is the abstract
parse (none = ValueError, uncaught); the handler also maps a missing 'ts'
key to None. -/
def current_session_date (parse : String → Option Int) (off : Int)
    (intervals : Option (List SleepInterval)) : Except PyErr (Option Int) :=
  onIntervals intervals (fun iv0 _ => selectCurrent iv0 (fun iv =>
    match iv.ts with
    | none => .ok none
    | some s =>
      match parse s with
      | none => .error .valueError
      | some d => .ok (some (d + off))))

/-- EightUser.current_sleep_stage (user.py): stage of the last entry of
the stages list; an empty stages list indexes stages[-1] and raises
IndexError, which the KeyError handler does not catch. -/
def current_sleep_stage (intervals : Option (List SleepInterval)) :
    Except PyErr (Option String) :=
  onIntervals intervals (fun iv0 _ => selectCurrent iv0 (fun iv =>
    match iv.stages with
    | none => .ok none
    | some ss =>
      match ss.getLast? with
      | none => .error .indexError
      | some st => .ok (some st.stage)))

/-- EightUser.current_sleep_score (user.py); a missing 'score' key is a
KeyError mapped to None by the handler. -/
def current_sleep_score (intervals : Option (List SleepInterval)) :
    Except PyErr (Option Int) :=
  onIntervals intervals (fun iv0 _ => selectCurrent iv0 (fun iv =>
    .ok iv.score))

/-- The breakdown dict {'awake': 0, 'light': 0, 'deep': 0}. -/
structure SleepBreakdown where
  awake : Int
  light : Int
  deep : Int
  deriving DecidableEq

/-- The per-stage duration summation loop shared by the breakdown
properties (user.py); stage kinds other than awake/light/deep are
skipped by the if/elif chain. -/
def breakdownOf (ss : List Stage) : SleepBreakdown :=
  ss.foldl (fun b st =>
    if st.stage = "awake" then ⟨b.awake + st.duration, b.light, b.deep⟩
    else if st.stage = "light" then ⟨b.awake, b.light + st.duration, b.deep⟩
    else if st.stage = "deep" then ⟨b.awake, b.light, b.deep + st.duration⟩
    else b) ⟨0, 0, 0⟩

/-- EightUser.current_sleep_breakdown (user.py). -/
def current_sleep_breakdown (intervals : Option (List SleepInterval)) :
    Except PyErr (Option SleepBreakdown) :=
  onIntervals intervals (fun iv0 _ => selectCurrent iv0 (fun iv =>
    match iv.stages with
    | none => .ok none
    | some ss => .ok (some (breakdownOf ss))))

/-- intervals[i]['timeseries']['tempBedC']: either dict key may be
missing, and both raise KeyError. -/
def getTempBedC (iv : SleepInterval) : Option (List (String × ℚ)) :=
  iv.timeseries.bind Timeseries.tempBedC

/-- intervals[i]['timeseries']['tempRoomC']. -/
def getTempRoomC (iv : SleepInterval) : Option (List (String × ℚ)) :=
  iv.timeseries.bind Timeseries.tempRoomC

/-- intervals[i]['timeseries']['respiratoryRate']. -/
def getRespiratoryRate (iv : SleepInterval) : Option (List (String × ℚ)) :=
  iv.timeseries.bind Timeseries.respiratoryRate

/-- intervals[i]['timeseries']['heartRate']. -/
def getHeartRate (iv : SleepInterval) : Option (List (String × ℚ)) :=
  iv.timeseries.bind Timeseries.heartRate

/-- intervals[i]['timeseries']['tnt']. -/
def getTnt (iv : SleepInterval) : Option (List (String × ℚ)) :=
  iv.timeseries.bind Timeseries.tnt

/-- EightUser.current_bed_temp (user.py): last sample of the bed temp
timeseries; bedtemps[-1] on an empty list raises IndexError. -/
def current_bed_temp (intervals : Option (List SleepInterval)) :
    Except PyErr (Option ℚ) :=
  onIntervals intervals (fun iv0 _ => selectCurrent iv0 (fun iv =>
    match getTempBedC iv with
    | none => .ok none
    | some xs =>
      match xs.getLast? with
      | none => .error .indexError
      | some pr => .ok (some pr.2)))

/-- EightUser.current_room_temp (user.py). -/
def current_room_temp (intervals : Option (List SleepInterval)) :
    Except PyErr (Option ℚ) :=
  onIntervals intervals (fun iv0 _ => selectCurrent iv0 (fun iv =>
    match getTempRoomC iv with
    | none => .ok none
    | some xs =>
      match xs.getLast? with
      | none => .error .indexError
      | some pr => .ok (some pr.2)))

/-- EightUser.current_tnt (user.py): count of toss and turn entries. -/
def current_tnt (intervals : Option (List SleepInterval)) :
    Except PyErr (Option Nat) :=
  onIntervals intervals (fun iv0 _ => selectCurrent iv0 (fun iv =>
    match getTnt iv with
    | none => .ok none
    | some xs => .ok (some xs.length)))

/-- EightUser.current_resp_rate (user.py). -/
def current_resp_rate (intervals : Option (List SleepInterval)) :
    Except PyErr (Option ℚ) :=
  onIntervals intervals (fun iv0 _ => selectCurrent iv0 (fun iv =>
    match getRespiratoryRate iv with
    | none => .ok none
    | some xs =>
      match xs.getLast? with
      | none => .error .indexError
      | some pr => .ok (some pr.2)))

/-- EightUser.current_heart_rate (user.py). -/
def current_heart_rate (intervals : Option (List SleepInterval)) :
    Except PyErr (Option ℚ) :=
  onIntervals intervals (fun iv0 _ => selectCurrent iv0 (fun iv =>
    match getHeartRate iv with
    | none => .ok none
    | some pr =>
      match pr.getLast? with
      | none => .error .indexError
      | some pr => .ok (some pr.2)))

/-- Shared selection of every last accessor (user.py): inside
`try ... except KeyError`, read intervals[0]['incomplete']; when True,
read the field of intervals[1] (IndexError when absent propagates, a
KeyError falls into the handler which rereads intervals[0]); a missing
'incomplete' key also falls into the handler; when the key holds False
the try block completes without assigning, so UnboundLocalError.  In the
handler, a missing field key on intervals[0] is an uncaught KeyError. -/
def selectLastField {α : Type} (iv0 : SleepInterval)
    (rest : List SleepInterval) (get : SleepInterval → Option α) :
    Except PyErr α :=
  match iv0.incomplete with
  | none =>
    match get iv0 with
    | none => .error .keyError
    | some x => .ok x
  | some false => .error .unboundLocalError
  | some true =>
    match rest with
    | [] => .error .indexError
    | iv1 :: _ =>
      match get iv1 with
      | none =>
        match get iv0 with
        | none => .error .keyError
        | some x => .ok x
      | some x => .ok x

/-- EightUser.last_sleep_score (user.py). -/
def last_sleep_score (intervals : Option (List SleepInterval)) :
    Except PyErr Int :=
  onIntervals intervals (fun iv0 rest =>
    selectLastField iv0 rest SleepInterval.score)

/-- EightUser.last_session_date (user.py): select the 'ts' text, then
strptime it (outside the try, so ValueError is uncaught) and add the
local/UTC offset. -/
def last_session_date (parse : String → Option Int) (off : Int)
    (intervals : Option (List SleepInterval)) : Except PyErr Int :=
  onIntervals intervals (fun iv0 rest => do
    let s ← selectLastField iv0 rest SleepInterval.ts
    match parse s with
    | none => .error .valueError
    | some d => .ok (d + off))

/-- EightUser.last_sleep_breakdown (user.py): select the stages list,
then sum durations per stage kind outside the try. -/
def last_sleep_breakdown (intervals : Option (List SleepInterval)) :
    Except PyErr SleepBreakdown :=
  onIntervals intervals (fun iv0 rest => do
    let ss ← selectLastField iv0 rest SleepInterval.stages
    .ok (breakdownOf ss))

/-- The averaging loop of the last temperature/rate accessors (user.py):
tmp = 0; tmp += pair[1] for each pair; tmp / len.  Dividing by a zero
length raises ZeroDivisionError. -/
def avgSnd (xs : List (String × ℚ)) : Except PyErr ℚ :=
  if xs.length = 0 then .error .zeroDivisionError
  else .ok (xs.foldl (fun a pr => a + pr.2) 0 / (xs.length : ℚ))

/-- EightUser.last_bed_temp (user.py). -/
def last_bed_temp (intervals : Option (List SleepInterval)) :
    Except PyErr ℚ :=
  onIntervals intervals (fun iv0 rest => do
    let xs ← selectLastField iv0 rest getTempBedC
    avgSnd xs)

/-- EightUser.last_room_temp (user.py). -/
def last_room_temp (intervals : Option (List SleepInterval)) :
    Except PyErr ℚ :=
  onIntervals intervals (fun iv0 rest => do
    let xs ← selectLastField iv0 rest getTempRoomC
    avgSnd xs)

/-- EightUser.last_tnt (user.py). -/
def last_tnt (intervals : Option (List SleepInterval)) :
    Except PyErr Nat :=
  onIntervals intervals (fun iv0 rest => do
    let xs ← selectLastField iv0 rest getTnt
    .ok xs.length)

/-- EightUser.last_resp_rate (user.py). -/
def last_resp_rate (intervals : Option (List SleepInterval)) :
    Except PyErr ℚ :=
  onIntervals intervals (fun iv0 rest => do
    let xs ← selectLastField iv0 rest getRespiratoryRate
    avgSnd xs)

/-- EightUser.last_heart_rate (user.py). -/
def last_heart_rate (intervals : Option (List SleepInterval)) :
    Except PyErr ℚ :=
  onIntervals intervals (fun iv0 rest => do
    let xs ← selectLastField iv0 rest getHeartRate
    avgSnd xs)

/-- The pure part of EightUser.dynamic_presence once heat_delta is known
and the heating level is a known l: the present check runs first, then
the absent if/elif, each able to overwrite the state. -/
def presence_step (l d : Int) (h p : Bool) : Bool :=
  let p1 := if 8 ≤ d ∧ 25 ≤ l then true else p
  if h then
    if d < 8 then false else p1
  else
    if l ≤ 15 then false else p1

/-- EightUser.dynamic_presence (user.py), as a function of the three
heating fields (None = absent value) and the stored presence boolean,
returning the new presence or the raised exception.
Branches, in the source's evaluation order:
- now_heating truthy with either level or target None: the subtraction
  heating_level - target_heating_level raises TypeError;
- now_heating truthy with both known: heat_delta = level - target, then
  the present and absent checks run;
- now_heating falsy with level known: heat_delta = level - 10, then the
  checks run;
- now_heating falsy with level None: heat_delta = 0; the present check
  short-circuits at 0 >= 8, but the absent check evaluates
  heating_level <= 15, and ordering None against an int raises
  TypeError. -/
def dynamic_presence (lvl tgt : Option Int) (heat : Option Bool)
    (p : Bool) : Except PyErr Bool :=
  match heat, lvl with
  | some true, none => .error .typeError
  | some true, some l =>
    match tgt with
    | none => .error .typeError
    | some t => .ok (presence_step l (l - t) true p)
  | _, some l => .ok (presence_step l (l - 10) false p)
  | _, none => .error .typeError

/-- Modelled from the spec's words for the C3 refinement claim: the
heat delta rule of section 4.5. -/
def spec_heat_delta (l t : Int) (h : Bool) : Int :=
  if h then l - t else l - 10

/-- Modelled from the spec's words for the C3 refinement claim: the two
rule transition of section 4.5, present check first, absent check last
(absent wins a tie because it is evaluated last). -/
def spec_transition (l t : Int) (h p : Bool) : Bool :=
  let d := spec_heat_delta l t h
  let p1 := if 8 ≤ d ∧ 25 ≤ l then true else p
  if (h = false ∧ l ≤ 15) ∨ (h = true ∧ d < 8) then false else p1

/-! Theorems.  Helper lemmas first, then one theorem per claim (with its
counterexample and witness where the claim's status needs them). -/

lemma presence_step_idem (l d : Int) (h p : Bool) :
    presence_step l d h (presence_step l d h p) = presence_step l d h p := by
  cases h <;>
    by_cases hc : 8 ≤ d ∧ 25 ≤ l <;>
      by_cases hd : d < 8 <;>
        by_cases hl : l ≤ 15 <;>
          simp [presence_step, hc, hd, hl]

/-- C3: the presence transition on known heating fields computes the heat
delta as level minus target when now heating, else level minus 10, fires
the present rule at delta >= 8 and level >= 25 and then the absent rules,
the absent rules being evaluated last; this equals the spec's two rule
transition function. -/
theorem C3_presence_transition (l t : Int) (h p : Bool) :
    dynamic_presence (some l) (some t) (some h) p =
      .ok (spec_transition l t h p) := by
  cases h <;>
    by_cases hc : 8 ≤ (spec_heat_delta l t false) ∧ 25 ≤ l <;>
      simp [dynamic_presence, spec_transition, presence_step,
        spec_heat_delta]

/-- C9: with the heating fields held fixed, a second presence inference
step cannot change the state a first step produced: whenever a poll tick
succeeds with new state q, a further tick from q yields q again. -/
theorem C9_presence_idempotent (lvl tgt : Option Int) (heat : Option Bool)
    (p q : Bool) (hpq : dynamic_presence lvl tgt heat p = .ok q) :
    dynamic_presence lvl tgt heat q = .ok q := by
  match heat, lvl with
  | some true, none => simp [dynamic_presence] at hpq
  | some true, some l =>
    match tgt with
    | none => simp [dynamic_presence] at hpq
    | some t =>
      simp only [dynamic_presence, Except.ok.injEq] at hpq ⊢
      rw [← hpq]
      exact presence_step_idem l (l - t) true p
  | none, some l =>
    simp only [dynamic_presence, Except.ok.injEq] at hpq ⊢
    rw [← hpq]
    exact presence_step_idem l (l - 10) false p
  | some false, some l =>
    simp only [dynamic_presence, Except.ok.injEq] at hpq ⊢
    rw [← hpq]
    exact presence_step_idem l (l - 10) false p
  | none, none => simp [dynamic_presence] at hpq
  | some false, none => simp [dynamic_presence] at hpq

/-- C9 witness: a concrete successful tick (level 30, target 10, not
heating, delta 20) moves absent to present, and the theorem applied at
that input shows the second tick keeps present. -/
theorem C9_witness :
    dynamic_presence (some 30) (some 10) (some false) true = .ok true :=
  C9_presence_idempotent (some 30) (some 10) (some false) false true
    (by decide)

/-- C4 counterexample: with no snapshot yet (all three heating fields
absent) a presence inference step does not leave the state unchanged
without raising; it raises TypeError (the absent check orders None
against 15), refuting the claim at this concrete input. -/
theorem C4_counterexample :
    dynamic_presence none none none false = .error .typeError ∧
      dynamic_presence none none none false ≠ .ok false := by
  decide

/-- C4 amended: when the heating level is unknown, heat_delta defaults
to 0 and the present transition does not fire (the present check
short-circuits at 0 >= 8), but the absent check then compares the
missing heating level with 15 and the step raises TypeError instead of
leaving the state unchanged; the stored presence field itself is never
reassigned before the raise. -/
theorem C4_amended (p : Bool) :
    dynamic_presence none none none p = .error .typeError := rfl

lemma take_append_take {α : Type} (a b : List α) (n : Nat) :
    (a ++ b.take n).take n = (a ++ b).take n := by
  rw [List.take_append_eq_append_take, List.take_append_eq_append_take,
    List.take_take, Nat.min_eq_left (Nat.sub_le n a.length)]

lemma pushSeq_eq {α : Type} (ds : List α) :
    ∀ init : List α, init.length ≤ 10 →
      pushSeq init ds = (ds.reverse ++ init).take 10 := by
  induction ds with
  | nil =>
    intro init hinit
    simp [pushSeq, List.take_of_length_le hinit]
  | cons d ds ih =>
    intro init hinit
    have hstep : pushSeq init (d :: ds) = pushSeq ((d :: init).take 10) ds := by
      simp [pushSeq, handle_device_json]
    rw [hstep, ih ((d :: init).take 10) (by simp [List.length_take]),
      take_append_take, List.reverse_cons, List.append_assoc]
    rfl

/-- C6: a push prepends the new snapshot (it becomes the head) and
truncates the history to the first 10 elements, so the length is always
at most 10; and pushing 11 snapshots into an empty history leaves
exactly the 10 most recent ones, newest first (the reverse of the push
order, truncated to 10). -/
theorem C6_history_bound {α : Type} :
    (∀ (d : α) (l : List α),
        (handle_device_json d l).head? = some d ∧
          (handle_device_json d l).length = min 10 (l.length + 1)) ∧
      ∀ ds : List α, ds.length = 11 →
        pushSeq ([] : List α) ds = ds.reverse.take 10 ∧
          (pushSeq ([] : List α) ds).length = 10 := by
  constructor
  · intro d l
    constructor
    · rfl
    · simp only [handle_device_json, List.length_take, List.length_cons]
  · intro ds hds
    have h : pushSeq ([] : List α) ds = ds.reverse.take 10 := by
      rw [pushSeq_eq ds [] (by simp)]
      simp
    refine ⟨h, ?_⟩
    rw [h]
    simp [List.length_take, hds]

/-- C6 witness: pushing the 11 snapshots 0..10 in order into an empty
history leaves exactly the last 10, newest first. -/
theorem C6_witness :
    pushSeq ([] : List Nat) [0, 1, 2, 3, 4, 5, 6, 7, 8, 9, 10] =
      [10, 9, 8, 7, 6, 5, 4, 3, 2, 1] :=
  Eq.trans
    (((@C6_history_bound Nat).2 [0, 1, 2, 3, 4, 5, 6, 7, 8, 9, 10]
        (by decide)).1)
    (by decide)

/-- C8 counterexample: on an empty history, device_data (the latest
accessor) raises the builtin IndexError of bare list indexing, not the
dedicated NoDataError the claim names; no such exception class exists in
the source. -/
theorem C8_counterexample :
    device_data ([] : List Nat) = .error .indexError ∧
      device_data ([] : List Nat) ≠ .error .noDataError := by
  decide

/-- C8 amended: device_data returns element 0 of the snapshot history
when it is non-empty, and on an empty history fails with the builtin
IndexError raised by indexing the empty list (there is no dedicated
NoDataError in the code). -/
theorem C8_amended {α : Type} :
    (∀ (a : α) (l : List α), device_data (a :: l) = .ok a) ∧
      device_data ([] : List α) = .error .indexError :=
  ⟨fun _ _ => rfl, rfl⟩

/-- C7 counterexample: with no snapshot stored yet, the heating level
accessor for side Left does not yield the absent value None; it raises
IndexError, because device_data on the empty history raises IndexError
and the accessor's handler only catches TypeError. -/
theorem C7_counterexample :
    heating_level "Left" ([] : List Snapshot) = .error .indexError ∧
      heating_level "Left" ([] : List Snapshot) ≠ .ok none := by
  decide

lemma except_error_bind {ε α β : Type} (e : ε) (f : α → Except ε β) :
    (Except.error e >>= f) = Except.error e := rfl

lemma except_ok_bind {ε α β : Type} (a : α) (f : α → Except ε β) :
    ((Except.ok a : Except ε α) >>= f) = f a := rfl

/-- C7 amended: with no snapshot stored yet, every one of the five
per-side accessors raises instead of yielding None: IndexError for the
capitalized sides Left and Right (device_data raises IndexError on the
empty history and the except TypeError handler does not catch it), and
UnboundLocalError for any other side string, including the lowercase
sides actual occupants are constructed with, because neither branch of
the if/elif assigns the result variable. -/
theorem C7_amended (side : String) :
    heating_level side ([] : List Snapshot) =
      (if side = "Left" ∨ side = "Right" then .error .indexError
        else .error .unboundLocalError) ∧
    target_heating_level side ([] : List Snapshot) =
      (if side = "Left" ∨ side = "Right" then .error .indexError
        else .error .unboundLocalError) ∧
    now_heating side ([] : List Snapshot) =
      (if side = "Left" ∨ side = "Right" then .error .indexError
        else .error .unboundLocalError) ∧
    heating_remaining side ([] : List Snapshot) =
      (if side = "Left" ∨ side = "Right" then .error .indexError
        else .error .unboundLocalError) ∧
    heating_values side ([] : List Snapshot) =
      (if side = "Left" ∨ side = "Right" then .error .indexError
        else .error .unboundLocalError) := by
  by_cases hL : side = "Left"
  · simp [heating_level, target_heating_level, now_heating,
      heating_remaining, heating_values, device_data, hL, except_error_bind]
  · by_cases hR : side = "Right"
    · simp [heating_level, target_heating_level, now_heating,
        heating_remaining, heating_values, device_data, hL, hR,
        except_error_bind]
    · simp [heating_level, target_heating_level, now_heating,
        heating_remaining, heating_values, device_data, hL, hR,
        except_error_bind]

/-- C10: occupants are constructed by assign_users with the lowercase
sides left and right, while every per-side accessor compares the side
against the capitalized Left and Right; so for every occupant actually
constructed and every non-empty snapshot history, the four per-side
accessors raise UnboundLocalError (the result variable is assigned in
neither branch) instead of returning the snapshot field or None. -/
theorem C10_side_mismatch (side : String) (hmem : side ∈ assign_users_sides)
    (hist : List Snapshot) (_hne : hist ≠ []) :
    heating_level side hist = .error .unboundLocalError ∧
      target_heating_level side hist = .error .unboundLocalError ∧
      now_heating side hist = .error .unboundLocalError ∧
      heating_remaining side hist = .error .unboundLocalError := by
  have hside : side = "left" ∨ side = "right" := by
    simpa [assign_users_sides] using hmem
  rcases hside with h | h <;> subst h <;>
    refine ⟨?_, ?_, ?_, ?_⟩ <;>
      simp [heating_level, target_heating_level, now_heating,
        heating_remaining]

/-- C10 witness: the accessors of the left occupant on a one-snapshot
history, with every per-side key present, all raise UnboundLocalError. -/
theorem C10_witness :
    heating_level "left"
        [(⟨some 20, some 20, some 10, some 10, some false, some false,
          some 0, some 0⟩ : Snapshot)] = .error .unboundLocalError ∧
      target_heating_level "left"
        [(⟨some 20, some 20, some 10, some 10, some false, some false,
          some 0, some 0⟩ : Snapshot)] = .error .unboundLocalError ∧
      now_heating "left"
        [(⟨some 20, some 20, some 10, some 10, some false, some false,
          some 0, some 0⟩ : Snapshot)] = .error .unboundLocalError ∧
      heating_remaining "left"
        [(⟨some 20, some 20, some 10, some 10, some false, some false,
          some 0, some 0⟩ : Snapshot)] = .error .unboundLocalError :=
  C10_side_mismatch "left" (by decide)
    [⟨some 20, some 20, some 10, some 10, some false, some false,
      some 0, some 0⟩] (by decide)

lemma selectCurrent_incomplete_missing {α : Type} (iv0 : SleepInterval)
    (body : SleepInterval → Except PyErr (Option α))
    (h : iv0.incomplete = none) : selectCurrent iv0 body = .ok none := by
  simp [selectCurrent, h]

lemma selectCurrent_incomplete_false {α : Type} (iv0 : SleepInterval)
    (body : SleepInterval → Except PyErr (Option α))
    (h : iv0.incomplete = some false) :
    selectCurrent iv0 body = .error .unboundLocalError := by
  simp [selectCurrent, h]

lemma selectCurrent_ok_some {α : Type} (iv0 : SleepInterval)
    (body : SleepInterval → Except PyErr (Option α)) (v : α)
    (h : selectCurrent iv0 body = .ok (some v)) :
    iv0.incomplete = some true := by
  cases hb : iv0.incomplete with
  | none => simp [selectCurrent, hb] at h
  | some b =>
    cases b with
    | false => simp [selectCurrent, hb] at h
    | true => rfl

/-- C1 amended: the current view fields yield None without raising
exactly via the KeyError handler: when intervals[0] exists but lacks the
incomplete key (and, under incomplete true, when an inner key is
missing); a field carries a value only when intervals[0].incomplete is
True, and then it is derived from intervals[0].  But an unset intervals
attribute raises TypeError, an empty intervals list raises IndexError,
and intervals[0].incomplete present with value False raises
UnboundLocalError, for every one of the nine fields. -/
theorem C1_current_view (parse : String → Option Int) (off : Int)
    (iv0 : SleepInterval) (rest : List SleepInterval) :
    (current_session_date parse off none = .error .typeError ∧
      current_sleep_score none = .error .typeError ∧
      current_sleep_stage none = .error .typeError ∧
      current_sleep_breakdown none = .error .typeError ∧
      current_tnt none = .error .typeError ∧
      current_bed_temp none = .error .typeError ∧
      current_room_temp none = .error .typeError ∧
      current_resp_rate none = .error .typeError ∧
      current_heart_rate none = .error .typeError) ∧
    (current_session_date parse off (some []) = .error .indexError ∧
      current_sleep_score (some []) = .error .indexError ∧
      current_sleep_stage (some []) = .error .indexError ∧
      current_sleep_breakdown (some []) = .error .indexError ∧
      current_tnt (some []) = .error .indexError ∧
      current_bed_temp (some []) = .error .indexError ∧
      current_room_temp (some []) = .error .indexError ∧
      current_resp_rate (some []) = .error .indexError ∧
      current_heart_rate (some []) = .error .indexError) ∧
    (iv0.incomplete = none →
      current_session_date parse off (some (iv0 :: rest)) = .ok none ∧
      current_sleep_score (some (iv0 :: rest)) = .ok none ∧
      current_sleep_stage (some (iv0 :: rest)) = .ok none ∧
      current_sleep_breakdown (some (iv0 :: rest)) = .ok none ∧
      current_tnt (some (iv0 :: rest)) = .ok none ∧
      current_bed_temp (some (iv0 :: rest)) = .ok none ∧
      current_room_temp (some (iv0 :: rest)) = .ok none ∧
      current_resp_rate (some (iv0 :: rest)) = .ok none ∧
      current_heart_rate (some (iv0 :: rest)) = .ok none) ∧
    (iv0.incomplete = some false →
      current_session_date parse off (some (iv0 :: rest)) =
          .error .unboundLocalError ∧
      current_sleep_score (some (iv0 :: rest)) =
          .error .unboundLocalError ∧
      current_sleep_stage (some (iv0 :: rest)) =
          .error .unboundLocalError ∧
      current_sleep_breakdown (some (iv0 :: rest)) =
          .error .unboundLocalError ∧
      current_tnt (some (iv0 :: rest)) = .error .unboundLocalError ∧
      current_bed_temp (some (iv0 :: rest)) = .error .unboundLocalError ∧
      current_room_temp (some (iv0 :: rest)) = .error .unboundLocalError ∧
      current_resp_rate (some (iv0 :: rest)) = .error .unboundLocalError ∧
      current_heart_rate (some (iv0 :: rest)) =
          .error .unboundLocalError) ∧
    ((∀ v : Int, current_session_date parse off (some (iv0 :: rest)) =
        .ok (some v) → iv0.incomplete = some true) ∧
      (∀ v : Int, current_sleep_score (some (iv0 :: rest)) = .ok (some v) →
        iv0.incomplete = some true) ∧
      (∀ v : String, current_sleep_stage (some (iv0 :: rest)) =
        .ok (some v) → iv0.incomplete = some true) ∧
      (∀ v : SleepBreakdown, current_sleep_breakdown (some (iv0 :: rest)) =
        .ok (some v) → iv0.incomplete = some true) ∧
      (∀ v : Nat, current_tnt (some (iv0 :: rest)) = .ok (some v) →
        iv0.incomplete = some true) ∧
      (∀ v : ℚ, current_bed_temp (some (iv0 :: rest)) = .ok (some v) →
        iv0.incomplete = some true) ∧
      (∀ v : ℚ, current_room_temp (some (iv0 :: rest)) = .ok (some v) →
        iv0.incomplete = some true) ∧
      (∀ v : ℚ, current_resp_rate (some (iv0 :: rest)) = .ok (some v) →
        iv0.incomplete = some true) ∧
      ∀ v : ℚ, current_heart_rate (some (iv0 :: rest)) = .ok (some v) →
        iv0.incomplete = some true) := by
  refine ⟨⟨rfl, rfl, rfl, rfl, rfl, rfl, rfl, rfl, rfl⟩,
    ⟨rfl, rfl, rfl, rfl, rfl, rfl, rfl, rfl, rfl⟩, ?_, ?_, ?_⟩
  · intro h
    refine ⟨?_, ?_, ?_, ?_, ?_, ?_, ?_, ?_, ?_⟩ <;>
      (simp only [current_session_date, current_sleep_score,
        current_sleep_stage, current_sleep_breakdown, current_tnt,
        current_bed_temp, current_room_temp, current_resp_rate,
        current_heart_rate, onIntervals];
       exact selectCurrent_incomplete_missing iv0 _ h)
  · intro h
    refine ⟨?_, ?_, ?_, ?_, ?_, ?_, ?_, ?_, ?_⟩ <;>
      (simp only [current_session_date, current_sleep_score,
        current_sleep_stage, current_sleep_breakdown, current_tnt,
        current_bed_temp, current_room_temp, current_resp_rate,
        current_heart_rate, onIntervals];
       exact selectCurrent_incomplete_false iv0 _ h)
  · refine ⟨?_, ?_, ?_, ?_, ?_, ?_, ?_, ?_, ?_⟩ <;>
      (intro v h';
       simp only [current_session_date, current_sleep_score,
         current_sleep_stage, current_sleep_breakdown, current_tnt,
         current_bed_temp, current_room_temp, current_resp_rate,
         current_heart_rate, onIntervals] at h';
       exact selectCurrent_ok_some iv0 _ v h')

/-- C1 counterexample: an empty intervals list makes the current score
field raise IndexError rather than yield None (the handler only catches
KeyError), and intervals[0].incomplete present with value False makes it
raise UnboundLocalError; both refute the claim at concrete inputs. -/
theorem C1_counterexample :
    current_sleep_score (some ([] : List SleepInterval)) =
        .error .indexError ∧
      current_sleep_score (some ([] : List SleepInterval)) ≠ .ok none ∧
      current_sleep_score
          (some [(⟨some false, none, some 80, none, none⟩ :
            SleepInterval)]) = .error .unboundLocalError := by
  decide

/-- C1 witness: a concrete instance of the amended theorem: an interval
without the incomplete key yields None for the score field, one with
incomplete False raises UnboundLocalError, and an interval carrying a
score value has incomplete True. -/
theorem C1_witness :
    current_sleep_score
        (some [(⟨none, none, some 80, none, none⟩ : SleepInterval)]) =
        .ok none ∧
      current_sleep_breakdown
        (some [(⟨some false, none, none, none, none⟩ : SleepInterval)]) =
        .error .unboundLocalError ∧
      (⟨some true, none, some 91, none, none⟩ : SleepInterval).incomplete =
        some true :=
  ⟨((C1_current_view (fun _ => none) 0 ⟨none, none, some 80, none, none⟩
      []).2.2.1 rfl).2.1,
    ((C1_current_view (fun _ => none) 0 ⟨some false, none, none, none, none⟩
      []).2.2.2.1 rfl).2.2.2.1,
    (C1_current_view (fun _ => none) 0 ⟨some true, none, some 91, none, none⟩
      []).2.2.2.2.2.1 91 rfl⟩

/-- C2 counterexample: a single recorded session whose incomplete key is
present with value False: the claim says the last score is then read
from intervals[0] (here 80), but the accessor raises UnboundLocalError
because the try block completes without assigning the score variable and
the KeyError handler never runs. -/
theorem C2_counterexample :
    last_sleep_score
        (some [(⟨some false, none, some 80, none, none⟩ :
          SleepInterval)]) = .error .unboundLocalError ∧
      last_sleep_score
        (some [(⟨some false, none, some 80, none, none⟩ :
          SleepInterval)]) ≠ .ok 80 := by
  decide

/-- C2 amended: the last view reads intervals[1] when
intervals[0].incomplete is True and intervals[0] when the incomplete key
is absent; when the key is present with value False it raises
UnboundLocalError instead of reading intervals[0]; when intervals[1] is
needed but does not exist it raises the builtin IndexError (there is no
dedicated NoCompletedSessionError in the code); an unset intervals
attribute raises TypeError and an empty list raises IndexError.  Stated
for the two fields the claim cites, score and date. -/
theorem C2_last_view (parse : String → Option Int) (off : Int)
    (iv0 iv1 : SleepInterval) (rest : List SleepInterval) (s : Int)
    (str : String) (d : Int) :
    (last_sleep_score none = .error .typeError ∧
      last_session_date parse off none = .error .typeError) ∧
    (last_sleep_score (some []) = .error .indexError ∧
      last_session_date parse off (some []) = .error .indexError) ∧
    (iv0.incomplete = none → iv0.score = some s →
      last_sleep_score (some (iv0 :: rest)) = .ok s) ∧
    (iv0.incomplete = none → iv0.ts = some str → parse str = some d →
      last_session_date parse off (some (iv0 :: rest)) = .ok (d + off)) ∧
    (iv0.incomplete = some true → iv1.score = some s →
      last_sleep_score (some (iv0 :: iv1 :: rest)) = .ok s) ∧
    (iv0.incomplete = some true → iv1.ts = some str → parse str = some d →
      last_session_date parse off (some (iv0 :: iv1 :: rest)) =
        .ok (d + off)) ∧
    (iv0.incomplete = some true →
      last_sleep_score (some [iv0]) = .error .indexError ∧
        last_session_date parse off (some [iv0]) = .error .indexError) ∧
    (iv0.incomplete = some false →
      last_sleep_score (some (iv0 :: rest)) = .error .unboundLocalError ∧
        last_session_date parse off (some (iv0 :: rest)) =
          .error .unboundLocalError) := by
  refine ⟨⟨rfl, rfl⟩, ⟨rfl, rfl⟩, ?_, ?_, ?_, ?_, ?_, ?_⟩
  · intro h0 hs
    simp [last_sleep_score, onIntervals, selectLastField, h0, hs]
  · intro h0 hts hp
    simp [last_session_date, onIntervals, selectLastField, h0, hts, hp,
      except_ok_bind]
  · intro h0 hs
    simp [last_sleep_score, onIntervals, selectLastField, h0, hs]
  · intro h0 hts hp
    simp [last_session_date, onIntervals, selectLastField, h0, hts, hp,
      except_ok_bind]
  · intro h0
    constructor
    · simp [last_sleep_score, onIntervals, selectLastField, h0]
    · simp [last_session_date, onIntervals, selectLastField, h0,
        except_error_bind]
  · intro h0
    constructor
    · simp [last_sleep_score, onIntervals, selectLastField, h0]
    · simp [last_session_date, onIntervals, selectLastField, h0,
        except_error_bind]

/-- C2 witness: concrete instances of the amended theorem: a single
completed session without the incomplete key yields its own score 80 and
its own parsed date plus the offset. -/
theorem C2_witness :
    last_sleep_score
        (some [(⟨none, some "T", some 80, none, none⟩ : SleepInterval)]) =
        .ok 80 ∧
      last_session_date (fun _ => some 100) 3
        (some [(⟨none, some "T", some 80, none, none⟩ : SleepInterval)]) =
        .ok 103 :=
  ⟨(C2_last_view (fun _ => some 100) 3 ⟨none, some "T", some 80, none, none⟩
      ⟨none, none, none, none, none⟩ [] 80 "T" 100).2.2.1 rfl rfl,
    (C2_last_view (fun _ => some 100) 3 ⟨none, some "T", some 80, none, none⟩
      ⟨none, none, none, none, none⟩ [] 80 "T" 100).2.2.2.1 rfl rfl rfl⟩

lemma foldl_add_snd (xs : List (String × ℚ)) (c : ℚ) :
    xs.foldl (fun a pr => a + pr.2) c = c + (xs.map Prod.snd).sum := by
  induction xs generalizing c with
  | nil => simp
  | cons x xs ih => simp [ih, add_assoc]

lemma avgSnd_eq (xs : List (String × ℚ)) :
    avgSnd xs = if xs = [] then .error .zeroDivisionError
      else .ok ((xs.map Prod.snd).sum / (xs.length : ℚ)) := by
  cases xs with
  | nil => simp [avgSnd]
  | cons x xs => simp [avgSnd, foldl_add_snd]

/-- C5: for a selected completed session (reached either because
intervals[0] lacks the incomplete key, or because intervals[0] is
incomplete and intervals[1] is selected), each of the four averaged last
metrics equals the arithmetic mean of the value components of the
corresponding timeseries, fails with ZeroDivisionError on an empty
timeseries, and on the spec's example timeseries of 20.0 and 22.0 yields
exactly 21.0. -/
theorem C5_last_averages (bs rs ps hs tl : List (String × ℚ))
    (rest : List SleepInterval) :
    (last_bed_temp (some ((⟨none, none, none, none,
          some ⟨some bs, some rs, some ps, some hs, some tl⟩⟩ :
        SleepInterval) :: rest)) =
      if bs = [] then .error .zeroDivisionError
        else .ok ((bs.map Prod.snd).sum / (bs.length : ℚ))) ∧
    (last_room_temp (some ((⟨none, none, none, none,
          some ⟨some bs, some rs, some ps, some hs, some tl⟩⟩ :
        SleepInterval) :: rest)) =
      if rs = [] then .error .zeroDivisionError
        else .ok ((rs.map Prod.snd).sum / (rs.length : ℚ))) ∧
    (last_resp_rate (some ((⟨none, none, none, none,
          some ⟨some bs, some rs, some ps, some hs, some tl⟩⟩ :
        SleepInterval) :: rest)) =
      if ps = [] then .error .zeroDivisionError
        else .ok ((ps.map Prod.snd).sum / (ps.length : ℚ))) ∧
    (last_heart_rate (some ((⟨none, none, none, none,
          some ⟨some bs, some rs, some ps, some hs, some tl⟩⟩ :
        SleepInterval) :: rest)) =
      if hs = [] then .error .zeroDivisionError
        else .ok ((hs.map Prod.snd).sum / (hs.length : ℚ))) ∧
    (last_bed_temp (some ((⟨some true, none, none, none, none⟩ :
          SleepInterval) :: (⟨none, none, none, none,
          some ⟨some bs, some rs, some ps, some hs, some tl⟩⟩ :
        SleepInterval) :: rest)) =
      if bs = [] then .error .zeroDivisionError
        else .ok ((bs.map Prod.snd).sum / (bs.length : ℚ))) ∧
    (last_bed_temp (some [(⟨none, none, none, none,
          some ⟨some [("t1", 20), ("t2", 22)], none, none, none, none⟩⟩ :
        SleepInterval)]) = .ok 21) ∧
    last_bed_temp (some [(⟨none, none, none, none,
        some ⟨some [], none, none, none, none⟩⟩ :
      SleepInterval)]) = .error .zeroDivisionError := by
  refine ⟨?_, ?_, ?_, ?_, ?_, ?_, ?_⟩ <;>
    simp [last_bed_temp, last_room_temp, last_resp_rate, last_heart_rate,
      onIntervals, selectLastField, getTempBedC, getTempRoomC,
      getRespiratoryRate, getHeartRate, Option.bind, except_ok_bind,
      avgSnd_eq]
  norm_num
